import Mathlib

/-!
Shallow embedding of `src/script.js` (the 2025-claims-map front end).

The core logic embedded here:
* `loadFilter`   — the row filter inside `loadYearData` (script.js line 64);
* `updateMap`    — marker reconciliation + count publishing (script.js lines 77-120);
* `rowPasses` / `applyFilters` — the filter engine (script.js lines 125-154);
* `typeColors` / `colorOf`     — the color lookup (script.js lines 10-16, 85-86).

JavaScript semantics modelled explicitly:
* CSV fields (Papa.parse with header: true) are strings, or absent
  (`undefined`), hence `Option String`;
* JS truthiness of a string field: present and non-empty;
* `parseFloat` returns NaN, ±Infinity or a finite number; we model the
  result as `JSNum` and implement the ECMAScript StrDecimalLiteral scan
  (leading whitespace skipped, optional sign, `Infinity` literal, decimal
  digits with optional fraction and exponent, trailing garbage ignored);
* `new Date(string)`: we model the ECMAScript Date Time String Format
  date-only form `YYYY-MM-DD` (the format produced by the page's date
  inputs and used in the datasets); every other string is modelled as an
  Invalid Date (`none`).  The comparable value is the number
  y*10000 + m*100 + d, which is order-isomorphic to the epoch timestamp
  on this domain (the code only ever compares dates);
* every relational comparison involving an Invalid Date (NaN time value)
  is false;
* `.trim().toLowerCase()` is modelled for the ASCII domain the data
  lives in.
-/

namespace ClaimsMap

/-- ASCII whitespace stripped by JS `trim` / skipped by `parseFloat`. -/
def isWs (c : Char) : Bool :=
  c = ' ' || c = '\t' || c = '\n' || c = '\r' || c = '\x0b' || c = '\x0c'

/-- A JavaScript number as far as this program observes it. -/
inductive JSNum where
  | nan : JSNum
  | inf : Bool → JSNum      -- `true` = negative infinity
  | finite : ℚ → JSNum
deriving DecidableEq, Repr

/-- JS `isNaN` on a parse result. -/
def JSNum.isNaN : JSNum → Bool
  | .nan => true
  | _ => false

/-- JS `Number.isFinite` on a parse result. -/
def JSNum.isFinite : JSNum → Bool
  | .finite _ => true
  | _ => false

/-- Longest digit run at the front of a character list, and the rest. -/
def takeDigits : List Char → List Char × List Char
  | [] => ([], [])
  | c :: cs =>
    if c.isDigit then
      let (d, r) := takeDigits cs
      (c :: d, r)
    else ([], c :: cs)

/-- Numeric value of a digit run. -/
def digitsVal (ds : List Char) : ℕ :=
  ds.foldl (fun a c => 10 * a + (c.toNat - 48)) 0

/-- Signed exponent digits after `e`/`E`; an empty digit run means the
exponent part is not consumed (JS backtracks), i.e. exponent 0. -/
def parseSignedDigits (cs : List Char) : ℤ :=
  match cs with
  | '-' :: r => -(digitsVal (takeDigits r).1 : ℤ)
  | '+' :: r => (digitsVal (takeDigits r).1 : ℤ)
  | _ => (digitsVal (takeDigits cs).1 : ℤ)

/-- Exponent part of a StrDecimalLiteral, 0 when absent or empty. -/
def parseExpPart (cs : List Char) : ℤ :=
  match cs with
  | 'e' :: rest => parseSignedDigits rest
  | 'E' :: rest => parseSignedDigits rest
  | _ => 0

/-- Body of `parseFloat` after leading whitespace has been stripped. -/
def parseFloatCore (cs0 : List Char) : JSNum :=
  let signAndRest : Bool × List Char :=
    match cs0 with
    | '-' :: rest => (true, rest)
    | '+' :: rest => (false, rest)
    | _ => (false, cs0)
  let neg := signAndRest.1
  let cs := signAndRest.2
  if cs.take 8 = "Infinity".data then JSNum.inf neg
  else
    let (intDs, cs1) := takeDigits cs
    let fracAndRest : List Char × List Char :=
      match cs1 with
      | '.' :: rest => takeDigits rest
      | _ => ([], cs1)
    let fracDs := fracAndRest.1
    let cs2 := fracAndRest.2
    if intDs = [] ∧ fracDs = [] then JSNum.nan
    else
      let mantissa : ℚ :=
        (digitsVal intDs : ℚ) + (digitsVal fracDs : ℚ) / ((10 : ℚ) ^ fracDs.length)
      let e := parseExpPart cs2
      let v : ℚ :=
        if 0 ≤ e then mantissa * (10 : ℚ) ^ e.toNat
        else mantissa / (10 : ℚ) ^ (-e).toNat
      JSNum.finite (if neg then -v else v)

/-- JS `parseFloat(s)`. -/
def parseFloat (s : String) : JSNum :=
  parseFloatCore (s.data.dropWhile isWs)

/-- `parseFloat(row.field)` where the field may be `undefined`
(`parseFloat(undefined)` scans the string `"undefined"`, yielding NaN). -/
def parseFloatField : Option String → JSNum
  | none => JSNum.nan
  | some s => parseFloat s

/-- ASCII case folding, the fragment of `toLowerCase` the data exercises. -/
def jsLowerChar (c : Char) : Char :=
  if 'A' ≤ c ∧ c ≤ 'Z' then Char.ofNat (c.toNat + 32) else c

/-- JS `s.trim().toLowerCase()` (ASCII domain). -/
def normalize (s : String) : String :=
  ⟨(((s.data.dropWhile isWs).reverse.dropWhile isWs).reverse).map jsLowerChar⟩

/-- JS `field || ''` on a possibly-absent string field. -/
def jsOrEmpty : Option String → String
  | none => ""
  | some s => s

/-- A JavaScript value as observed by a dynamic property read on an
object literal: `undef` for a missing property, `str` for an own
string-valued property, `protoObj` (tagged with the property name) for a
truthy non-string value inherited from `Object.prototype` — a function,
or the `Object.prototype` object itself for the key `__proto__`. -/
inductive JSValue where
  | undef : JSValue
  | str : String → JSValue
  | protoObj : String → JSValue
deriving DecidableEq, Repr

/-- The property names every object literal inherits from
`Object.prototype`; a dynamic read of any of these on `typeColors`
yields a truthy non-string value, not `undefined`. -/
def objectPrototypeKeys : List String :=
  ["constructor", "hasOwnProperty", "isPrototypeOf", "propertyIsEnumerable",
   "toLocaleString", "toString", "valueOf", "__defineGetter__",
   "__defineSetter__", "__lookupGetter__", "__lookupSetter__", "__proto__"]

/-- JS dynamic property read `obj[k]` on an object literal with string
values: an own property wins, otherwise the read goes through the
prototype chain (`Object.prototype`), and only then is it `undefined`. -/
def getProp (obj : List (String × String)) (k : String) : JSValue :=
  match obj.lookup k with
  | some v => JSValue.str v
  | none =>
    if objectPrototypeKeys.contains k then JSValue.protoObj k else JSValue.undef

/-- JS `a || b` on property-read results: `undefined` and the empty
string are falsy; inherited prototype values are truthy. -/
def jsOrValue (a : JSValue) (b : JSValue) : JSValue :=
  match a with
  | JSValue.undef => b
  | JSValue.str s => if s = "" then b else a
  | JSValue.protoObj _ => a

/-- JS truthiness of a possibly-absent string field. -/
def truthy : Option String → Bool
  | none => false
  | some s => s ≠ ""

/-- `new Date(s)`: `some` comparable time value for a `YYYY-MM-DD` date
string, `none` (Invalid Date) otherwise. -/
def parseDate (s : String) : Option ℤ :=
  match s.data with
  | [y1, y2, y3, y4, '-', m1, m2, '-', d1, d2] =>
    if ([y1, y2, y3, y4, m1, m2, d1, d2]).all Char.isDigit then
      let y := digitsVal [y1, y2, y3, y4]
      let m := digitsVal [m1, m2]
      let d := digitsVal [d1, d2]
      let daysInMonth : ℕ :=
        if m = 2 then
          if y % 4 = 0 ∧ (y % 100 ≠ 0 ∨ y % 400 = 0) then 29 else 28
        else if m = 4 ∨ m = 6 ∨ m = 9 ∨ m = 11 then 30
        else 31
      if 1 ≤ m ∧ m ≤ 12 ∧ 1 ≤ d ∧ d ≤ daysInMonth then
        some ((y : ℤ) * 10000 + (m : ℤ) * 100 + (d : ℤ))
      else none
    else none
  | _ => none

/-- `new Date(row.date)` where the field may be `undefined`
(`new Date(undefined)` is an Invalid Date). -/
def parseDateField : Option String → Option ℤ
  | none => none
  | some s => parseDate s

/-- JS `a >= b` on Date values: false whenever either side is Invalid. -/
def jsDateGE (a b : Option ℤ) : Bool :=
  match a, b with
  | some x, some y => decide (y ≤ x)
  | _, _ => false

/-- JS `a <= b` on Date values: false whenever either side is Invalid. -/
def jsDateLE (a b : Option ℤ) : Bool :=
  match a, b with
  | some x, some y => decide (x ≤ y)
  | _, _ => false

/-- One parsed CSV row (Papa.parse with header: true): each column is a
string, or absent when the column is missing. -/
structure Row where
  type : Option String
  date : Option String
  latitude : Option String
  longitude : Option String
  location_desc : Option String
deriving DecidableEq, Repr

/-- `typeColors` (script.js lines 10-16). -/
def typeColors : List (String × String) :=
  [("pothole", "red"),
   ("property damage", "orange"),
   ("slip and fall", "blue"),
   ("trip and fall", "green"),
   ("other", "gray")]

/-- `standardTypes` (script.js line 133). -/
def standardTypes : List String :=
  ["pothole", "property damage", "slip and fall", "trip and fall"]

/-- The row filter applied on load success (script.js line 64):
`results.data.filter(row => row.latitude && row.longitude)` — JS
truthiness, i.e. a presence/non-emptiness check. -/
def loadFilter (rows : List Row) : List Row :=
  rows.filter (fun row => truthy row.latitude && truthy row.longitude)

/-- Color selection for one marker (script.js lines 85-86):
`typeColors[(row.type || '').trim().toLowerCase()] || typeColors.other`.
The dynamic read `typeColors[typeKey]` goes through the prototype chain,
so keys such as `"constructor"` and `"__proto__"` yield a truthy
inherited value and the `|| typeColors.other` fallback is not taken. -/
def colorOf (typeField : Option String) : JSValue :=
  let typeKey := normalize (jsOrEmpty typeField)
  jsOrValue (getProp typeColors typeKey) (getProp typeColors "other")

/-- A rendered marker as far as the claims observe it; the color is the
JS value the lookup produced (a string for every own entry, a truthy
prototype value for inherited keys). -/
structure Marker where
  lat : JSNum
  lon : JSNum
  color : JSValue
deriving DecidableEq, Repr

/-- Marker produced for one row inside `updateMap`'s forEach
(script.js lines 80-117): parse both coordinates with `parseFloat`, skip
the row when either is NaN, otherwise add a marker colored by type. -/
def markerOfRow (row : Row) : Option Marker :=
  let lat := parseFloatField row.latitude
  let lon := parseFloatField row.longitude
  if lat.isNaN || lon.isNaN then none
  else some { lat := lat, lon := lon, color := colorOf row.type }

/-- `updateMap(data)` (script.js lines 77-120): the markers added to the
cluster group, and the count passed to `updateClaimCount` — which is
`data.length`, the length of the input list. -/
def updateMap (data : List Row) : List Marker × ℕ :=
  (data.filterMap markerOfRow, data.length)

/-- The filter specification `applyFilters` reads from the UI controls
(script.js lines 126-128): the raw values of the start-date, end-date and
type inputs (empty string = unset). -/
structure FilterSpec where
  startDateVal : String
  endDateVal : String
  typeSelect : String
deriving DecidableEq, Repr

/-- The per-row predicate of `applyFilters` (script.js lines 128-150),
with the values the source hoists out of the loop (`selectedType`,
`startDate`, `endDate`) recomputed per row — behaviorally identical since
they do not depend on the row. -/
def rowPasses (spec : FilterSpec) (row : Row) : Bool :=
  let selectedType := normalize spec.typeSelect
  let startDate : Option (Option ℤ) :=
    if spec.startDateVal = "" then none else some (parseDate spec.startDateVal)
  let endDate : Option (Option ℤ) :=
    if spec.endDateVal = "" then none else some (parseDate spec.endDateVal)
  let rowDate := parseDateField row.date
  let rowType := normalize (jsOrEmpty row.type)
  let isStandardType := standardTypes.contains rowType
  let isOther := !isStandardType
  let typeMatch :=
    (selectedType == "") ||
    (selectedType == "other" && isOther) ||
    (selectedType == rowType)
  -- `!startDate || rowDate >= startDate`: a Date object is truthy even
  -- when Invalid, so only the null (unset) case short-circuits.
  let startOk :=
    match startDate with
    | none => true
    | some b => jsDateGE rowDate b
  let endOk :=
    match endDate with
    | none => true
    | some b => jsDateLE rowDate b
  typeMatch && startOk && endOk

/-- `applyFilters` (script.js lines 135-151), as the pure function from
the loaded dataset and the UI-derived spec to the filtered subset. -/
def applyFilters (allData : List Row) (spec : FilterSpec) : List Row :=
  allData.filter (rowPasses spec)

/-- The type-match component of `rowPasses` in isolation (script.js
lines 139-145). -/
def typeMatchB (spec : FilterSpec) (row : Row) : Bool :=
  let selectedType := normalize spec.typeSelect
  let rowType := normalize (jsOrEmpty row.type)
  (selectedType == "") ||
  (selectedType == "other" && !(standardTypes.contains rowType)) ||
  (selectedType == rowType)

/-- The all-unset filter specification (what the UI yields right after a
year change resets the three inputs). -/
def emptySpec : FilterSpec := ⟨"", "", ""⟩

/-- A row whose latitude is the non-numeric string "N/A": it survives the
load-time truthiness filter but produces no marker. -/
def rowNA : Row :=
  { type := some "Pothole", date := some "2025-03-01",
    latitude := some "N/A", longitude := some "-78.86",
    location_desc := none }

/-- A row whose latitude parses to Infinity: non-finite, yet not NaN. -/
def rowInf : Row :=
  { type := some "Pothole", date := some "2025-03-01",
    latitude := some "Infinity", longitude := some "-78.86",
    location_desc := none }

/-- A fully well-formed row. -/
def rowGood : Row :=
  { type := some "Pothole", date := some "2025-03-01",
    latitude := some "43.9", longitude := some "-78.86",
    location_desc := none }

/-- The "Pothole" row of the spec's two-record scenario. -/
def potholeRow : Row :=
  { type := some "Pothole", date := some "2025-03-01",
    latitude := some "43.9", longitude := some "-78.86",
    location_desc := none }

/-- The "Bogus" row of the spec's two-record scenario. -/
def bogusRow : Row :=
  { type := some "Bogus", date := some "2025-06-01",
    latitude := some "43.91", longitude := some "-78.85",
    location_desc := none }

/-- The spec's `{type: "other"}` filter specification. -/
def specOther : FilterSpec := ⟨"", "", "other"⟩

/-- A row with a non-standard type, used for selection scenarios. -/
def graffitiRow : Row :=
  { type := some "graffiti", date := some "2025-04-01",
    latitude := some "43.92", longitude := some "-78.84",
    location_desc := none }

/-- A row whose date string is unparseable. -/
def rowBadDate : Row :=
  { type := some "Pothole", date := some "garbage",
    latitude := some "43.9", longitude := some "-78.86",
    location_desc := none }

/-- Rows whose coordinates all parse without NaN are all rendered, so the
marker list is as long as the input. -/
lemma length_filterMap_of_all_some (l : List Row)
    (h : ∀ r ∈ l, (markerOfRow r).isSome = true) :
    (l.filterMap markerOfRow).length = l.length := by
  induction l with
  | nil => rfl
  | cons hd tl ih =>
    have hhd := h hd (List.mem_cons_self hd tl)
    obtain ⟨m, hm⟩ := Option.isSome_iff_exists.mp hhd
    have htl := ih (fun r hr => h r (List.mem_cons_of_mem hd hr))
    simp [List.filterMap_cons, hm, htl]

/-- The expression `rowPasses` computes when both date inputs are empty:
only the type-match disjunction remains. -/
lemma rowPasses_empty_dates (ts : String) (row : Row) :
    rowPasses ⟨"", "", ts⟩ row =
      ((normalize ts == "") ||
       ((normalize ts == "other") &&
         !(standardTypes.contains (normalize (jsOrEmpty row.type)))) ||
       (normalize ts == normalize (jsOrEmpty row.type))) := by
  simp [rowPasses]

/-- Selecting `other` reduces the type-match disjunction to
non-membership in the standard types. -/
lemma typeMatch_other (rt : String) :
    ((("other" : String) == "") ||
     ((("other" : String) == "other") && !(standardTypes.contains rt)) ||
     (("other" : String) == rt)) = !(standardTypes.contains rt) := by
  by_cases h : rt = "other"
  · subst h; decide
  · have h2 : (("other" : String) == rt) = false :=
      beq_eq_false_iff_ne.mpr (fun e => h e.symm)
    have e1 : (("other" : String) == "") = false := by decide
    have e2 : (("other" : String) == "other") = true := by decide
    simp [e1, e2, h2]

/-- C1 counterexample: `updateMap` applied to the single row whose
latitude is `"N/A"` produces no marker, yet publishes the count 1 — the
published count is taken from the input list's length, not post-drop. -/
theorem c1_counterexample :
    (updateMap [rowNA]).1.length = 0 ∧ (updateMap [rowNA]).2 = 1 := by
  decide

/-- C1 (amended): the count `updateMap` publishes equals the length of
its input list (pre render-time drops); it equals the number of markers
produced exactly in the case that no record is dropped at render time,
in particular whenever every record's coordinates parse without NaN. -/
theorem c1_count_is_input_length (data : List Row) :
    (updateMap data).2 = data.length ∧
    ((∀ r ∈ data, (markerOfRow r).isSome = true) →
      (updateMap data).1.length = data.length) :=
  ⟨rfl, fun h => length_filterMap_of_all_some data h⟩

/-- C1 witness: on a singleton well-formed row the amended statement
evaluates as claimed. -/
theorem c1_witness :
    (updateMap [rowGood]).1.length = [rowGood].length :=
  (c1_count_is_input_length [rowGood]).2 (by decide)

/-- C2 counterexample: the row whose latitude is the non-numeric string
`"N/A"` survives `loadFilter` (JS truthiness is a presence check), so the
in-memory dataset can hold records whose coordinates do not parse. -/
theorem c2_counterexample :
    rowNA ∈ loadFilter [rowNA] ∧ (parseFloatField rowNA.latitude).isNaN = true := by
  decide

/-- C2 (amended): after a successful load, every record in the dataset
has latitude and longitude fields that are present and non-empty (JS
truthiness); numeric validity is not established at load time. -/
theorem c2_load_presence_only (rows : List Row) (r : Row)
    (h : r ∈ loadFilter rows) :
    truthy r.latitude = true ∧ truthy r.longitude = true := by
  have := List.mem_filter.mp h
  exact Bool.and_eq_true _ _ |>.mp this.2

/-- C2 witness: the presence guarantee evaluated on a concrete load. -/
theorem c2_witness :
    truthy rowGood.latitude = true ∧ truthy rowGood.longitude = true :=
  c2_load_presence_only [rowGood] rowGood (by decide)

/-- C3 counterexample: the row whose latitude is `"Infinity"` has a
latitude that does not parse to a finite number, yet `updateMap`
produces a marker for it — the guard is `isNaN`, not finiteness. -/
theorem c3_counterexample :
    (parseFloatField rowInf.latitude).isFinite = false ∧
    (markerOfRow rowInf).isSome = true ∧
    (updateMap [rowInf]).1.length = 1 := by
  decide

/-- C3 (amended): a record is skipped by the marker reconciler whenever
its latitude or longitude is missing or parses to NaN; records whose
coordinates parse to ±Infinity are not skipped. -/
theorem c3_nan_rows_skipped (row : Row)
    (h : (parseFloatField row.latitude).isNaN = true ∨
         (parseFloatField row.longitude).isNaN = true) :
    markerOfRow row = none := by
  rcases h with h | h <;> simp [markerOfRow, h]

/-- C3 witness: the NaN-latitude row produces no marker. -/
theorem c3_witness : markerOfRow rowNA = none :=
  c3_nan_rows_skipped rowNA (Or.inl (by decide))

/-- C4: an all-empty filter specification returns the dataset unchanged,
and every filter application yields a sublist of the dataset (insertion
order preserved among survivors, no resorting). -/
theorem c4_filter_preserves_order (data : List Row) (spec : FilterSpec) :
    applyFilters data emptySpec = data ∧
    List.Sublist (applyFilters data spec) data :=
  ⟨List.filter_eq_self.mpr (fun _ _ => rfl), List.filter_sublist data⟩

/-- C5: selecting `other` passes exactly the records whose normalized
type is not one of the four standard types; on the spec's two-record
scenario the result is the "Bogus" record alone and the published count
is 1. -/
theorem c5_other_matches_nonstandard :
    (∀ row : Row, rowPasses specOther row =
        !(standardTypes.contains (normalize (jsOrEmpty row.type)))) ∧
    applyFilters [potholeRow, bogusRow] specOther = [bogusRow] ∧
    (updateMap (applyFilters [potholeRow, bogusRow] specOther)).2 = 1 := by
  refine ⟨?_, by decide, by decide⟩
  intro row
  rw [show specOther = ⟨"", "", "other"⟩ from rfl, rowPasses_empty_dates]
  rw [show normalize "other" = "other" from by decide]
  exact typeMatch_other _

/-- C6: the filter compares the normalized (trimmed, lowercased) forms
of both the record's type and the selected value — replacing either
string by one with the same normalization leaves the outcome unchanged —
and concretely a record typed `"Property Damage "` passes the filter
value `"property damage"`. -/
theorem c6_normalized_comparison :
    (∀ (sv ev s₁ s₂ t₁ t₂ : String) (d la lo loc : Option String),
        normalize s₁ = normalize s₂ → normalize t₁ = normalize t₂ →
        rowPasses ⟨sv, ev, s₁⟩ ⟨some t₁, d, la, lo, loc⟩ =
          rowPasses ⟨sv, ev, s₂⟩ ⟨some t₂, d, la, lo, loc⟩) ∧
    rowPasses ⟨"", "", "property damage"⟩
      { type := some "Property Damage ", date := some "2025-03-01",
        latitude := some "43.9", longitude := some "-78.86",
        location_desc := none } = true := by
  refine ⟨?_, by decide⟩
  intro sv ev s₁ s₂ t₁ t₂ d la lo loc h₁ h₂
  simp only [rowPasses, jsOrEmpty]
  rw [h₁, h₂]

/-- C6 witness: two spellings of "property damage" differing in case and
surrounding whitespace produce the same filter outcome. -/
theorem c6_witness :
    rowPasses ⟨"", "", " PROPERTY Damage "⟩
      ⟨some "property damage", some "2025-03-01", some "43.9", some "-78.86", none⟩ =
    rowPasses ⟨"", "", "property damage"⟩
      ⟨some "Property Damage ", some "2025-03-01", some "43.9", some "-78.86", none⟩ :=
  c6_normalized_comparison.1 "" "" " PROPERTY Damage " "property damage"
    "property damage" "Property Damage " (some "2025-03-01") (some "43.9")
    (some "-78.86") none (by decide) (by decide)

/-- C7: a record with an unparseable date never passes when any date
bound is set (comparisons against an Invalid Date are false), and passes
on the type match alone when no bound is set. -/
theorem c7_invalid_date_asymmetry (spec : FilterSpec) (row : Row)
    (hd : parseDateField row.date = none) :
    ((spec.startDateVal ≠ "" ∨ spec.endDateVal ≠ "") → rowPasses spec row = false) ∧
    (spec.startDateVal = "" → spec.endDateVal = "" →
      rowPasses spec row = typeMatchB spec row) := by
  obtain ⟨sv, ev, ts⟩ := spec
  constructor
  · intro hbound
    rcases hbound with h1 | h1 <;> simp [rowPasses, jsDateGE, jsDateLE, hd, h1]
  · intro h1 h2
    subst h1; subst h2
    simp [rowPasses, typeMatchB]

/-- C7 witness: the bad-date row is excluded once a start bound is set,
and passes on type alone when no bound is set. -/
theorem c7_witness :
    rowPasses ⟨"2025-05-01", "", ""⟩ rowBadDate = false ∧
    rowPasses ⟨"", "", ""⟩ rowBadDate = typeMatchB ⟨"", "", ""⟩ rowBadDate :=
  ⟨(c7_invalid_date_asymmetry ⟨"2025-05-01", "", ""⟩ rowBadDate (by decide)).1
      (Or.inl (by decide)),
   (c7_invalid_date_asymmetry ⟨"", "", ""⟩ rowBadDate (by decide)).2 rfl rfl⟩

/-- C8 counterexample: the type `"constructor"` is not one of the four
standard types, yet the dynamic read `typeColors["constructor"]` finds
the truthy `Object.prototype.constructor` through the prototype chain,
so the `|| typeColors.other` fallback is not taken and the color is not
the `other` entry's gray. -/
theorem c8_counterexample :
    standardTypes.contains (normalize (jsOrEmpty (some "constructor"))) = false ∧
    colorOf (some "constructor") = JSValue.protoObj "constructor" ∧
    colorOf (some "constructor") ≠ JSValue.str "gray" := by
  decide

/-- C8 (amended): any type field whose normalized form is neither one of
the four standard types nor an `Object.prototype` property name —
including the empty string and a missing field — is colored with the
`other` entry's gray; normalized types that name an inherited property
(the all-lowercase ones being `constructor` and `__proto__`) instead
yield that truthy inherited value. -/
theorem c8_nonstandard_color_gray (t : Option String)
    (h : standardTypes.contains (normalize (jsOrEmpty t)) = false)
    (hp : objectPrototypeKeys.contains (normalize (jsOrEmpty t)) = false) :
    colorOf t = JSValue.str "gray" := by
  simp only [standardTypes, List.contains_cons, List.contains_nil,
    Bool.or_eq_false_iff] at h
  obtain ⟨h1, h2, h3, h4, -⟩ := h
  by_cases ho : normalize (jsOrEmpty t) = "other"
  · simp only [colorOf]
    rw [ho]
    decide
  · have h5 : (normalize (jsOrEmpty t) == "other") = false :=
      beq_eq_false_iff_ne.mpr ho
    have hnone : List.lookup (normalize (jsOrEmpty t)) typeColors = none := by
      simp [typeColors, List.lookup, h1, h2, h3, h4, h5]
    simp only [colorOf, getProp]
    rw [hnone, hp]
    rfl

/-- C8 witness: an unrecognized type string that names no inherited
property gets the gray color. -/
theorem c8_witness : colorOf (some "Graffiti") = JSValue.str "gray" :=
  c8_nonstandard_color_gray (some "Graffiti") (by decide) (by decide)

/-- C9: applying the same filter specification twice yields the same
result as applying it once. -/
theorem c9_filter_idempotent (data : List Row) (spec : FilterSpec) :
    applyFilters (applyFilters data spec) spec = applyFilters data spec := by
  simp [applyFilters, List.filter_filter]

/-- C10: a non-empty selection that is neither `other` nor standard
matches exactly the records whose normalized type equals the normalized
selection; concretely, selecting "graffiti" keeps only the graffiti
row. -/
theorem c10_verbatim_nonstandard_selection :
    (∀ (spec : FilterSpec) (row : Row),
        normalize spec.typeSelect ≠ "" → normalize spec.typeSelect ≠ "other" →
        spec.startDateVal = "" → spec.endDateVal = "" →
        rowPasses spec row =
          (normalize spec.typeSelect == normalize (jsOrEmpty row.type))) ∧
    applyFilters [potholeRow, bogusRow, graffitiRow] ⟨"", "", "graffiti"⟩ =
      [graffitiRow] := by
  refine ⟨?_, by decide⟩
  intro spec row h1 h2 hs he
  obtain ⟨sv, ev, ts⟩ := spec
  dsimp only at hs he h1 h2
  subst hs; subst he
  have e1 : (normalize ts == "") = false := beq_eq_false_iff_ne.mpr h1
  have e2 : (normalize ts == "other") = false := beq_eq_false_iff_ne.mpr h2
  rw [rowPasses_empty_dates, e1, e2]
  simp

/-- C10 witness: selecting "graffiti" against the "Bogus" row reduces to
the verbatim normalized comparison (here false). -/
theorem c10_witness :
    rowPasses ⟨"", "", "graffiti"⟩ bogusRow =
      (normalize "graffiti" == normalize (jsOrEmpty bogusRow.type)) :=
  c10_verbatim_nonstandard_selection.1 ⟨"", "", "graffiti"⟩ bogusRow
    (by decide) (by decide) rfl rfl

end ClaimsMap
